import Mathlib

/-!
Verification development for the multi-support-agent repository.

The Python sources (src/agent/intent.py, src/agent/agent.py, src/agent/tools.py,
src/db/sqlite_client.py) are shallowly embedded below.  Pure text manipulation is
modelled on List Char / String; the external collaborators (the Ollama chat model,
the sqlite database and the Chroma vector store) are modelled as oracles supplied
through environment records, with a raised Python exception modelled as Except.error.
All embedded functions are executable, so concrete runs can be settled by decide/rfl.
-/

set_option maxRecDepth 8000

namespace MSA

/-! ## Basic character and Python-string utilities -/

/-- Apostrophe character (U+0027). -/
def apos : Char := Char.ofNat 39

/-- Characters matched by the regex class backslash-s (ASCII range, as produced by
Python re on the ASCII inputs this code handles). -/
def isPySpace (c : Char) : Bool :=
  c = ' ' || c = '\t' || c = '\n' || c = '\x0d' || c = '\x0c' || c = '\x0b'

def isUpperCh (c : Char) : Bool := 'A' ≤ c && c ≤ 'Z'

def isLowerCh (c : Char) : Bool := 'a' ≤ c && c ≤ 'z'

def isDigitCh (c : Char) : Bool := '0' ≤ c && c ≤ '9'

def isAlphaCh (c : Char) : Bool := isUpperCh c || isLowerCh c

/-- Characters matched by the regex class backslash-w (ASCII model). -/
def isWordCh (c : Char) : Bool := isAlphaCh c || isDigitCh c || c = '_'

/-- Python substring test (the in operator on str): needle occurs somewhere in hay. -/
def containsList : List Char → List Char → Bool
  | [], needle => needle.isEmpty
  | c :: t, needle => needle.isPrefixOf (c :: t) || containsList t needle

def lowerList (l : List Char) : List Char := l.map Char.toLower

def upperList (l : List Char) : List Char := l.map Char.toUpper

/-- Python str.strip(): drop whitespace from both ends. -/
def stripList (l : List Char) : List Char :=
  ((l.dropWhile isPySpace).reverse.dropWhile isPySpace).reverse

def pyStrip (s : String) : String := String.mk (stripList s.data)

def lowerS (s : String) : String := String.mk (lowerList s.data)

def upperS (s : String) : String := String.mk (upperList s.data)

def strContains (hay needle : String) : Bool := containsList hay.data needle.data

def strStartsWith (s pre : String) : Bool := pre.data.isPrefixOf s.data

/-- Python s[:n] character slicing. -/
def pyTake (n : Nat) (s : String) : String := String.mk (s.data.take n)

/-- Python s[n:] character slicing. -/
def pyDrop (n : Nat) (s : String) : String := String.mk (s.data.drop n)

/-- Python s.split(sep, 1): text before the first occurrence of sep, and the text
after it (none when sep does not occur).  sep must be nonempty. -/
def splitOnceList (sep : List Char) : List Char → List Char × Option (List Char)
  | [] => ([], none)
  | c :: t =>
    if sep.isPrefixOf (c :: t) && !sep.isEmpty then ([], some (t.drop (sep.length - 1)))
    else
      let r := splitOnceList sep t
      (c :: r.1, r.2)

/-- Helper for replaceAllList: the Nat argument counts characters still to be
skipped because they belong to an already-replaced occurrence. -/
def replaceAllAux (sep repl : List Char) : Nat → List Char → List Char
  | _, [] => []
  | k + 1, _ :: t => replaceAllAux sep repl k t
  | 0, c :: t =>
    if sep.isPrefixOf (c :: t) && !sep.isEmpty then
      repl ++ replaceAllAux sep repl (sep.length - 1) t
    else c :: replaceAllAux sep repl 0 t

/-- Python s.replace(old, new): replace all non-overlapping occurrences, left to right. -/
def replaceAllList (sep repl : List Char) (l : List Char) : List Char :=
  replaceAllAux sep repl 0 l

/-- Helper for splitAllList, with the same skip-counter device. -/
def splitAllAux (sep : List Char) : Nat → List Char → List (List Char)
  | _, [] => [[]]
  | k + 1, _ :: t => splitAllAux sep k t
  | 0, c :: t =>
    if sep.isPrefixOf (c :: t) && !sep.isEmpty then
      [] :: splitAllAux sep (sep.length - 1) t
    else
      match splitAllAux sep 0 t with
      | [] => [[c]]
      | h :: r => (c :: h) :: r

/-- Python s.split(sep) with nonempty sep. -/
def splitAllList (sep l : List Char) : List (List Char) :=
  splitAllAux sep 0 l

def pySplitOnce (s sep : String) : String × Option String :=
  let r := splitOnceList sep.data s.data
  (String.mk r.1, r.2.map String.mk)

def pySplitAll (s sep : String) : List String :=
  (splitAllList sep.data s.data).map String.mk

def pyReplaceAll (s sep repl : String) : String :=
  String.mk (replaceAllList sep.data repl.data s.data)

/-! ## A small backtracking regex engine

Python re.search semantics for the fixed patterns appearing in intent.py: leftmost
match position; ordered alternation; greedy (plusG, starG, opt) and lazy (plusL,
starL) quantifiers over character classes; one capture group (grp); word boundary
(wb); end anchor (eos, which in Python also matches just before a final newline);
case-insensitive literals (the ci flag on lit). -/

inductive RE where
  | eps
  | lit (s : String) (ci : Bool)
  | cls (p : Char → Bool)
  | plusG (p : Char → Bool)
  | plusL (p : Char → Bool)
  | starG (p : Char → Bool)
  | starL (p : Char → Bool)
  | opt (r : RE)
  | cat (a b : RE)
  | alt2 (a b : RE)
  | grp (r : RE)
  | wb
  | eos

/-- Result of a successful match attempt: the capture of group 1, when one was set. -/
abbrev GCap := Option (List Char)

def isWordO : Option Char → Bool
  | some c => isWordCh c
  | none => false

def headO : List Char → Option Char
  | [] => none
  | c :: _ => some c

def matchLit (ci : Bool) : List Char → Option Char → List Char → (Option Char → List Char → Option GCap) → Option GCap
  | [], prev, s, k => k prev s
  | c :: cs, _, s, k =>
    match s with
    | [] => none
    | d :: t =>
      if (if ci then c.toLower == d.toLower else c == d) then matchLit ci cs (some d) t k
      else none

def plusGreedy (p : Char → Bool) : List Char → (Option Char → List Char → Option GCap) → Option GCap
  | [], _ => none
  | c :: t, k => if p c then (plusGreedy p t k <|> k (some c) t) else none

def plusLazy (p : Char → Bool) : List Char → (Option Char → List Char → Option GCap) → Option GCap
  | [], _ => none
  | c :: t, k => if p c then (k (some c) t <|> plusLazy p t k) else none

def matchRE : RE → Option Char → List Char → (Option Char → List Char → Option GCap) → Option GCap
  | .eps, prev, s, k => k prev s
  | .lit str ci, prev, s, k => matchLit ci str.data prev s k
  | .cls p, _, s, k =>
    match s with
    | [] => none
    | c :: t => if p c then k (some c) t else none
  | .plusG p, _, s, k => plusGreedy p s k
  | .plusL p, _, s, k => plusLazy p s k
  | .starG p, prev, s, k => plusGreedy p s k <|> k prev s
  | .starL p, prev, s, k => k prev s <|> plusLazy p s k
  | .opt r, prev, s, k => matchRE r prev s k <|> k prev s
  | .cat a b, prev, s, k => matchRE a prev s (fun p2 s2 => matchRE b p2 s2 k)
  | .alt2 a b, prev, s, k => matchRE a prev s k <|> matchRE b prev s k
  | .grp r, prev, s, k =>
    matchRE r prev s (fun p2 s2 => (k p2 s2).map (fun _ => some (s.take (s.length - s2.length))))
  | .wb, prev, s, k => if isWordO prev != isWordO (headO s) then k prev s else none
  | .eos, prev, s, k => if s.isEmpty || s == ['\n'] then k prev s else none

/-- re.search: try a full match at every position, leftmost first; prev carries the
character just before the current position (for word boundaries). -/
def searchREAux (r : RE) : Option Char → List Char → Option GCap
  | prev, [] => matchRE r prev [] (fun _ _ => some none)
  | prev, c :: t => matchRE r prev (c :: t) (fun _ _ => some none) <|> searchREAux r (some c) t

/-- Whether re.search finds a match. -/
def reTest (r : RE) (text : String) : Bool := (searchREAux r none text.data).isSome

/-- m.group(1) of the re.search match, when the search succeeded and group 1 was set. -/
def reGroup1 (r : RE) (text : String) : Option String :=
  match searchREAux r none text.data with
  | some (some l) => some (String.mk l)
  | _ => none

/-! ## intent.py: the regex patterns -/

/-- The regex piece backslash-s-plus. -/
def wsP : RE := .plusG isPySpace

/-- The regex piece [A-Z][a-z]+. -/
def capWordRE : RE := .cat (.cls isUpperCh) (.plusG isLowerCh)

/-- intent.py pattern (in _has_person_name): customer followed by a First Last name. -/
def personRE1 : RE :=
  .cat .wb (.cat (.lit "customer" false) (.cat wsP
    (.grp (.cat capWordRE (.cat wsP capWordRE)))))

/-- intent.py pattern (in _has_person_name): First Last followed by
qualify/profile/details/tickets/bought/purchased. -/
def personRE2 : RE :=
  .cat .wb (.cat (.grp (.cat capWordRE (.cat wsP capWordRE)))
    (.cat wsP
      (.alt2 (.lit "qualify" false) (.alt2 (.lit "profile" false)
        (.alt2 (.lit "details" false) (.alt2 (.lit "tickets" false)
          (.alt2 (.lit "bought" false) (.lit "purchased" false))))))))

/-- intent.py pattern (in _has_person_name and _extract_customer_name_from_text):
Does/Did/Has followed by First Last and trailing whitespace. -/
def personRE3 : RE :=
  .cat (.alt2 (.lit "Does" false) (.alt2 (.lit "Did" false) (.lit "Has" false)))
    (.cat wsP (.cat (.grp (.cat capWordRE (.cat wsP capWordRE))) wsP))

/-- intent.py _has_person_name: any of the three patterns matches. -/
def hasPersonName (text : String) : Bool :=
  reTest personRE1 text || reTest personRE2 text || reTest personRE3 text

/-- intent.py name pattern 1 (case-insensitive, DOTALL): customer followed by a lazy
letters-and-space span, terminated by apostrophe-s, whitespace+profile,
whitespace+details, or end of input. -/
def nameRE1 : RE :=
  .cat .wb (.cat (.lit "customer" true) (.cat wsP
    (.cat (.grp (.cat (.cls isAlphaCh) (.plusL (fun c => isAlphaCh c || isPySpace c))))
      (.alt2 (.cat (.cls (fun c => c == apos)) (.lit "s" true))
        (.alt2 (.cat wsP (.lit "profile" true))
          (.alt2 (.cat wsP (.lit "details" true)) .eos))))))

/-- intent.py name pattern 3: two-word capitalized name after the word customer. -/
def nameRE3 : RE := personRE1

/-- intent.py name pattern 4: a bare two-word capitalized span with an optional
profile/details/qualify/buy tail. -/
def nameRE4 : RE :=
  .cat (.grp (.cat capWordRE (.cat wsP capWordRE)))
    (.opt (.alt2 (.cat wsP (.lit "profile" false)) (.alt2 (.cat wsP (.lit "details" false))
      (.alt2 (.cat wsP (.lit "qualify" false)) (.cat wsP (.lit "buy" false))))))

/-- intent.py _extract_customer_name_from_text: four ordered pattern attempts,
first match wins, result stripped. -/
def extractCustomerNameFromText (text : String) : Option String :=
  match reGroup1 nameRE1 text with
  | some g => some (pyStrip g)
  | none =>
    match reGroup1 personRE3 text with
    | some g => some (pyStrip g)
    | none =>
      match reGroup1 nameRE3 text with
      | some g => some (pyStrip g)
      | none =>
        match reGroup1 nameRE4 text with
        | some g => some (pyStrip g)
        | none => none

/-- intent.py email pattern. -/
def emailRE : RE :=
  .grp (.cat (.plusG (fun c => isWordCh c || c = '.' || c = '+' || c = '%' || c = '-'))
    (.cat (.lit "@" false)
      (.cat (.plusG (fun c => isWordCh c || c = '.' || c = '-'))
        (.cat (.lit "." false) (.plusG isWordCh)))))

/-- intent.py first product pattern (case-insensitive):
buy/bought/purchase/product, whitespace, optional quote, lazy alphanumeric-space
span, optional quote, then question mark / dot / comma / end. -/
def productRE1 : RE :=
  .cat (.alt2 (.lit "buy" true) (.alt2 (.lit "bought" true)
      (.alt2 (.lit "purchase" true) (.lit "product" true))))
    (.cat wsP (.cat (.opt (.cls (fun c => c == apos || c = '"')))
      (.cat (.grp (.plusL (fun c => isAlphaCh c || isDigitCh c || isPySpace c)))
        (.cat (.opt (.cls (fun c => c == apos || c = '"')))
          (.alt2 (.lit "?" false) (.alt2 (.lit "." false) (.alt2 (.lit "," false) .eos)))))))

/-- intent.py second product pattern (case-insensitive): buy/bought after a word
boundary, then a lazy alphanumeric-space span up to question mark / dot / end. -/
def productRE2 : RE :=
  .cat .wb (.cat (.alt2 (.lit "buy" true) (.lit "bought" true))
    (.cat wsP (.cat (.grp (.cat (.cls (fun c => isAlphaCh c || isDigitCh c))
        (.starL (fun c => isAlphaCh c || isDigitCh c || isPySpace c))))
      (.alt2 (.lit "?" false) (.alt2 (.lit "." false) .eos)))))

/-- intent.py ticket-id pattern.  The whole pattern is compiled with re.IGNORECASE,
under which the class [A-Z] matches lowercase letters as well, so the optional
leading letter of the captured id is any ASCII letter. -/
def ticketRE : RE :=
  .cat (.lit "ticket" true) (.cat (.starG isPySpace) (.cat (.opt (.lit "id" true))
    (.cat (.starG isPySpace) (.cat (.opt (.cls (fun c => c = '#' || c = ':')))
      (.cat (.starG isPySpace) (.grp (.cat (.opt (.cls isAlphaCh)) (.plusG isDigitCh))))))))

/-- intent.py ticket-status pattern for one status word (case-insensitive, with word
boundaries on both sides). -/
def statusRE (st : String) : RE := .cat .wb (.cat (.lit st true) .wb)

def statusList : List String := ["open", "pending", "resolved", "closed", "in progress"]

/-! ## intent.py: entity extraction -/

/-- The EntityBag of the specification: one optional slot per recognized entity.
A field is some v exactly when the corresponding key is present in the Python dict
(note that Python stores a key even when the extracted value is an empty string). -/
structure EntityBag where
  customer_name : Option String := none
  customer_email : Option String := none
  product_purchased : Option String := none
  ticket_id : Option String := none
  ticket_status : Option String := none
deriving DecidableEq, Repr

def EntityBag.empty : EntityBag := {}

instance : EmptyCollection EntityBag := ⟨EntityBag.empty⟩

/-- Python truthiness of the entity dict: empty dict is falsy. -/
def EntityBag.isEmpty (b : EntityBag) : Bool :=
  b.customer_name.isNone && b.customer_email.isNone && b.product_purchased.isNone &&
    b.ticket_id.isNone && b.ticket_status.isNone

/-- intent.py _extract_entities.  The second product pattern overwrites the first
whenever it matches, because the source guards it with the key "product" which is
never used ("product_purchased" is the stored key). -/
def extractEntities (text : String) : EntityBag :=
  let nameV : Option String :=
    match extractCustomerNameFromText text with
    | some n => if n = "" then none else some n
    | none => none
  let emailV : Option String := reGroup1 emailRE text
  let prod1 : Option String := (reGroup1 productRE1 text).map pyStrip
  let prod2 : Option String := (reGroup1 productRE2 text).map pyStrip
  let prodV : Option String := match prod2 with | some p => some p | none => prod1
  let tickV : Option String := reGroup1 ticketRE text
  let statV : Option String := statusList.find? (fun st => reTest (statusRE st) text)
  { customer_name := nameV, customer_email := emailV, product_purchased := prodV,
    ticket_id := tickV, ticket_status := statV }

/-! ## A model of Python floats and json.loads, and the fallback-path coercions -/

/-- Model of a Python float value as far as this code can observe it: an exact
finite value, or one of the non-finite values that json.loads (Infinity, -Infinity,
NaN) and float("inf")/float("nan") produce. -/
inductive PyFloat where
  | finite (q : ℚ)
  | inf
  | ninf
  | nan
deriving DecidableEq, Repr

/-- Python truthiness of a float: only 0.0 is falsy (bool of nan and inf is True). -/
def pyFloatTruthy : PyFloat → Bool
  | .finite q => q != 0
  | _ => true

def renderPyFloat : PyFloat → String
  | .finite q => toString q.num ++ "/" ++ toString q.den
  | .inf => "inf"
  | .ninf => "-inf"
  | .nan => "nan"

inductive JVal where
  | jnull
  | jbool (b : Bool)
  | jnum (v : PyFloat)
  | jstr (s : String)
  | jarr (l : List JVal)
  | jobj (l : List (String × JVal))

def isJsonWs (c : Char) : Bool := c = ' ' || c = '\t' || c = '\n' || c = '\x0d'

def skipJWs (l : List Char) : List Char := l.dropWhile isJsonWs

def digitVal (c : Char) : Nat := c.toNat - '0'.toNat

def digitsToNat (l : List Char) : Nat := l.foldl (fun a c => a * 10 + digitVal c) 0

/-- Parse a JSON string body after the opening quote, handling the standard escapes. -/
def parseJStringBody : List Char → Option (List Char × List Char)
  | [] => none
  | '"' :: t => some ([], t)
  | '\\' :: e :: t =>
    match e with
    | '"' => (parseJStringBody t).map (fun r => ('"' :: r.1, r.2))
    | '\\' => (parseJStringBody t).map (fun r => ('\\' :: r.1, r.2))
    | '/' => (parseJStringBody t).map (fun r => ('/' :: r.1, r.2))
    | 'n' => (parseJStringBody t).map (fun r => ('\n' :: r.1, r.2))
    | 't' => (parseJStringBody t).map (fun r => ('\t' :: r.1, r.2))
    | 'r' => (parseJStringBody t).map (fun r => ('\x0d' :: r.1, r.2))
    | 'b' => (parseJStringBody t).map (fun r => ('\x08' :: r.1, r.2))
    | 'f' => (parseJStringBody t).map (fun r => ('\x0c' :: r.1, r.2))
    | 'u' =>
      match t with
      | h1 :: h2 :: h3 :: h4 :: t2 =>
        if [h1, h2, h3, h4].all (fun c => isDigitCh c || ('a' ≤ c && c ≤ 'f') || ('A' ≤ c && c ≤ 'F')) then
          let hv := fun (c : Char) =>
            if isDigitCh c then digitVal c
            else if 'a' ≤ c && c ≤ 'f' then c.toNat - 'a'.toNat + 10
            else c.toNat - 'A'.toNat + 10
          let n := ((hv h1 * 16 + hv h2) * 16 + hv h3) * 16 + hv h4
          (parseJStringBody t2).map (fun r => (Char.ofNat n :: r.1, r.2))
        else none
      | _ => none
    | _ => none
  | c :: t =>
    if c.toNat < 32 then none
    else (parseJStringBody t).map (fun r => (c :: r.1, r.2))

/-- Parse a JSON number per the strict grammar minus-digits-frac-exp. -/
def parseJNumber (l : List Char) : Option (ℚ × List Char) :=
  let (sgn, l1) : ℚ × List Char := match l with | '-' :: t => (-1, t) | _ => (1, l)
  let ipart := l1.takeWhile isDigitCh
  let rest1 := l1.dropWhile isDigitCh
  if ipart = [] then none
  else if ipart.length > 1 && ipart.headI = '0' then none
  else
    let (fnum, fden, rest2) : ℚ × ℚ × List Char :=
      match rest1 with
      | '.' :: t =>
        let fr := t.takeWhile isDigitCh
        (digitsToNat fr, (10 : ℚ) ^ fr.length, t.dropWhile isDigitCh)
      | _ => (0, 1, rest1)
    let fracOk : Bool := match rest1 with | '.' :: t => !(t.takeWhile isDigitCh).isEmpty | _ => true
    if !fracOk then none
    else
      let (expOk, ex, rest3) : Bool × Int × List Char :=
        match rest2 with
        | 'e' :: t | 'E' :: t =>
          let (esgn, t1) : Int × List Char := match t with | '-' :: t2 => (-1, t2) | '+' :: t2 => (1, t2) | _ => (1, t)
          let ed := t1.takeWhile isDigitCh
          (!ed.isEmpty, esgn * (digitsToNat ed : Int), t1.dropWhile isDigitCh)
        | _ => (true, 0, rest2)
      if !expOk then none
      else
        let base : ℚ := sgn * ((digitsToNat ipart : ℚ) + fnum / fden)
        some (base * (10 : ℚ) ^ ex, rest3)

mutual

def parseJVal : Nat → List Char → Option (JVal × List Char)
  | 0, _ => none
  | fuel + 1, l =>
    match skipJWs l with
    | [] => none
    | c :: t =>
      if c = 'n' then
        match c :: t with
        | 'n' :: 'u' :: 'l' :: 'l' :: r => some (.jnull, r)
        | _ => none
      else if c = 't' then
        match c :: t with
        | 't' :: 'r' :: 'u' :: 'e' :: r => some (.jbool true, r)
        | _ => none
      else if c = 'f' then
        match c :: t with
        | 'f' :: 'a' :: 'l' :: 's' :: 'e' :: r => some (.jbool false, r)
        | _ => none
      else if c = '"' then
        (parseJStringBody t).map (fun r => (.jstr (String.mk r.1), r.2))
      else if c = '[' then
        match skipJWs t with
        | ']' :: r => some (.jarr [], r)
        | _ => (parseJItems fuel t).map (fun r => (.jarr r.1, r.2))
      else if c = '\x7b' then
        match skipJWs t with
        | '\x7d' :: r => some (.jobj [], r)
        | _ => (parseJMembers fuel t).map (fun r => (.jobj r.1, r.2))
      else if c = 'I' then
        match c :: t with
        | 'I' :: 'n' :: 'f' :: 'i' :: 'n' :: 'i' :: 't' :: 'y' :: r => some (.jnum .inf, r)
        | _ => none
      else if c = 'N' then
        match c :: t with
        | 'N' :: 'a' :: 'N' :: r => some (.jnum .nan, r)
        | _ => none
      else if c = '-' ∧ t.take 8 = "Infinity".data then
        some (.jnum .ninf, t.drop 8)
      else
        (parseJNumber (c :: t)).map (fun r => (.jnum (.finite r.1), r.2))

def parseJItems : Nat → List Char → Option (List JVal × List Char)
  | 0, _ => none
  | fuel + 1, l =>
    match parseJVal fuel l with
    | none => none
    | some (v, r) =>
      match skipJWs r with
      | ',' :: r2 => (parseJItems fuel r2).map (fun p => (v :: p.1, p.2))
      | ']' :: r2 => some ([v], r2)
      | _ => none

def parseJMembers : Nat → List Char → Option (List (String × JVal) × List Char)
  | 0, _ => none
  | fuel + 1, l =>
    match skipJWs l with
    | '"' :: t =>
      match parseJStringBody t with
      | none => none
      | some (key, r) =>
        match skipJWs r with
        | ':' :: r2 =>
          match parseJVal fuel r2 with
          | none => none
          | some (v, r3) =>
            match skipJWs r3 with
            | ',' :: r4 => (parseJMembers fuel r4).map (fun p => ((String.mk key, v) :: p.1, p.2))
            | '\x7d' :: r4 => some ([(String.mk key, v)], r4)
            | _ => none
        | _ => none
    | _ => none

end

/-- Model of Python json.loads: parse one value, allow surrounding whitespace,
require the whole input to be consumed. -/
def jsonLoads (s : String) : Option JVal :=
  match parseJVal (s.data.length + 1) s.data with
  | some (v, rest) => if skipJWs rest = [] then some v else none
  | none => none

/-- Lookup in a parsed JSON object; later duplicate keys win, as in Python dicts. -/
def dictGet (l : List (String × JVal)) (k : String) : Option JVal :=
  l.foldl (fun acc p => if p.1 = k then some p.2 else acc) none

/-- Python truthiness of a parsed JSON value. -/
def jTruthy : JVal → Bool
  | .jnull => false
  | .jbool b => b
  | .jnum v => pyFloatTruthy v
  | .jstr s => s != ""
  | .jarr l => !l.isEmpty
  | .jobj l => !l.isEmpty

/-- A deterministic rendering for non-string JSON values; used only to keep values
that the Python code would store unchanged in an Optional[str] field. -/
def renderJ : JVal → String
  | .jnull => "None"
  | .jbool b => if b then "True" else "False"
  | .jnum v => renderPyFloat v
  | .jstr s => s
  | .jarr _ => "[...]"
  | .jobj _ => "dict"

/-- Model of float(s) on a string argument: after stripping and an optional sign,
either one of the special words inf / infinity / nan (case-insensitive), or decimal
digits with an optional fraction and exponent. -/
def pyFloatOfString (s : String) : Option PyFloat :=
  let l := stripList s.data
  let (sgnNeg, l1) : Bool × List Char :=
    match l with | '-' :: t => (true, t) | '+' :: t => (false, t) | _ => (false, l)
  let lw := lowerList l1
  if lw = "inf".data || lw = "infinity".data then some (if sgnNeg then .ninf else .inf)
  else if lw = "nan".data then some .nan
  else
    let sgn : ℚ := if sgnNeg then -1 else 1
    let ipart := l1.takeWhile isDigitCh
    let rest1 := l1.dropWhile isDigitCh
    let (fnum, fden, fdigits, rest2) : ℚ × ℚ × List Char × List Char :=
      match rest1 with
      | '.' :: t => (digitsToNat (t.takeWhile isDigitCh), (10 : ℚ) ^ (t.takeWhile isDigitCh).length,
          t.takeWhile isDigitCh, t.dropWhile isDigitCh)
      | _ => (0, 1, [], rest1)
    if ipart = [] && fdigits = [] then none
    else
      let (expOk, ex, rest3) : Bool × Int × List Char :=
        match rest2 with
        | 'e' :: t | 'E' :: t =>
          let (esgn, t1) : Int × List Char :=
            match t with | '-' :: t2 => (-1, t2) | '+' :: t2 => (1, t2) | _ => (1, t)
          let ed := t1.takeWhile isDigitCh
          (!ed.isEmpty, esgn * (digitsToNat ed : Int), t1.dropWhile isDigitCh)
        | _ => (true, 0, rest2)
      if !expOk || rest3 ≠ [] then none
      else some (.finite (sgn * ((digitsToNat ipart : ℚ) + fnum / fden) * (10 : ℚ) ^ ex))

/-- Model of float(x) applied to a parsed JSON value (TypeError on null, lists and
dicts is a conversion failure). -/
def pyFloatJ : JVal → Option PyFloat
  | .jnum v => some v
  | .jbool b => some (.finite (if b then 1 else 0))
  | .jstr s => pyFloatOfString s
  | _ => none

/-- Model of the expression (x or "both").lower() on the parsed intent value: falsy
values give "both"; a truthy non-string raises AttributeError (modelled as none). -/
def pyOrBothLower : Option JVal → Option String
  | none => some "both"
  | some v =>
    if jTruthy v then
      match v with
      | .jstr s => some (lowerS s)
      | _ => none
    else some "both"

/-- Model of the expression (x or fallback) for the customer_name field; a truthy
non-string value would be stored unchanged by Python and is rendered here. -/
def pyOrJStr (v : Option JVal) (fallback : Option String) : Option String :=
  match v with
  | none => fallback
  | some w => if jTruthy w then some (match w with | .jstr s => s | u => renderJ u) else fallback

/-- Model of obj.get("ticket_id") stored into an optional string field. -/
def jToOptStr : Option JVal → Option String
  | none => none
  | some .jnull => none
  | some (.jstr s) => some s
  | some w => some (renderJ w)

/-! ## intent.py: classify_intent_and_entities -/

def INTENT_POLICY : String := "policy"

def INTENT_CUSTOMER : String := "customer"

def INTENT_BOTH : String := "both"

def policyKeywords : List String :=
  ["refund policy", "refund policy?", "current refund", "what is the refund",
   "policy", "terms", "cancellation", "qualify under", "qualify for refund",
   "policy document", "legal", "company policy"]

def customerKeywords : List String :=
  ["customer", "profile", "support ticket", "ticket details", "ticket history",
   "overview of customer", "customer" ++ String.mk [apos] ++ "s profile",
   "past support", "tickets for"]

/-- intent.py line 110: has_policy over the lowercased message. -/
def hasPolicyHeur (message : String) : Bool :=
  let msg_lower := lowerS message
  policyKeywords.any (fun kw => strContains msg_lower kw) || strContains msg_lower "policy"

/-- intent.py line 111: has_customer over the lowercased message. -/
def hasCustomerHeur (message : String) : Bool :=
  let msg_lower := lowerS message
  customerKeywords.any (fun kw => strContains msg_lower kw) || strContains msg_lower "customer"

/-- intent.py IntentResult dataclass. -/
structure IntentResult where
  intent : String
  confidence : PyFloat
  customer_name : Option String := none
  ticket_id : Option String := none
  raw_json : Option String := none
  entities : Option EntityBag := none
deriving DecidableEq, Repr

structure ClassifyOut where
  result : IntentResult
  llmCalled : Bool
deriving DecidableEq, Repr

def jsonStrOrNull : Option String → String
  | some n => "\"" ++ n ++ "\""
  | none => "null"

/-- The json.dumps output for the rule-branch raw_json payloads. -/
def dumpsIntentName (intentV : String) (name : Option String) (conf : String) : String :=
  "\x7b\"intent\": \"" ++ intentV ++ "\", \"customer_name\": " ++ jsonStrOrNull name ++
    ", \"confidence\": " ++ conf ++ "\x7d"

/-- intent.py lines 164-170: code-fence stripping before json.loads. -/
def fenceStrip (content : String) : String :=
  if strContains content "```" then
    match (pySplitAll content "```").find? (fun part => strContains part "\x7b") with
    | some part =>
      let part2 := pyStrip part
      if strStartsWith part2 "json" then pyStrip (pyDrop 4 part2) else part2
    | none => content
  else content

/-- The try-block of the model-fallback path of classify_intent_and_entities
(intent.py lines 151-183): none models an exception escaping the block. -/
def llmClassifyStep (message : String) (resp : Except String String) : Option IntentResult :=
  match resp with
  | .error _ => none
  | .ok raw =>
    let content := fenceStrip (pyStrip raw)
    match jsonLoads content with
    | none => none
    | some obj =>
      match obj with
      | .jobj l =>
        match pyOrBothLower (dictGet l "intent") with
        | none => none
        | some intentRaw =>
          let intentV :=
            if intentRaw = INTENT_POLICY || intentRaw = INTENT_CUSTOMER || intentRaw = INTENT_BOTH
            then intentRaw else INTENT_BOTH
          match pyFloatJ ((dictGet l "confidence").getD (.jnum (.finite (8/10)))) with
          | none => none
          | some conf =>
            let extracted := extractEntities message
            some { intent := intentV, confidence := conf,
                   customer_name := pyOrJStr (dictGet l "customer_name")
                     (extractCustomerNameFromText message),
                   ticket_id := jToOptStr (dictGet l "ticket_id"),
                   entities := if extracted.isEmpty then none else some extracted,
                   raw_json := some content }
      | _ => none

/-- intent.py lines 187-195: the default Both decision at confidence 0.5. -/
def defaultBothResult (message : String) : IntentResult :=
  let extracted := extractEntities message
  { intent := INTENT_BOTH, confidence := .finite (1/2),
    customer_name := extractCustomerNameFromText message,
    entities := if extracted.isEmpty then none else some extracted,
    raw_json := some "\x7b\"intent\": \"both\", \"confidence\": 0.5\x7d" }

/-- intent.py classify_intent_and_entities.  llm is the collaborator oracle: none
models llm=None, some (.error e) a model invocation that raises, some (.ok c) a
response with content c.  The llmCalled flag records whether the model was invoked. -/
def classify (user_message : String) (llm : Option (Except String String)) : ClassifyOut :=
  let message := pyStrip user_message
  if message = "" then ⟨{ intent := INTENT_BOTH, confidence := .finite 0 }, false⟩
  else
    let has_policy := hasPolicyHeur message
    let has_customer := hasCustomerHeur message
    let extracted := extractEntities message
    let has_person_or_entity := hasPersonName message || !extracted.isEmpty
    if has_policy && (has_customer || has_person_or_entity) then
      let name := match extracted.customer_name with
        | some n => some n
        | none => extractCustomerNameFromText message
      ⟨{ intent := INTENT_BOTH, confidence := .finite (9/10), customer_name := name,
         ticket_id := extracted.ticket_id,
         entities := if extracted.isEmpty then none else some extracted,
         raw_json := some (dumpsIntentName INTENT_BOTH name "0.9") }, false⟩
    else if has_policy && !has_customer && !has_person_or_entity then
      ⟨{ intent := INTENT_POLICY, confidence := .finite (95/100), entities := some EntityBag.empty,
         raw_json := some "\x7b\"intent\": \"policy\", \"confidence\": 0.95\x7d" }, false⟩
    else if has_customer || has_person_or_entity then
      let name := match extracted.customer_name with
        | some n => some n
        | none => extractCustomerNameFromText message
      ⟨{ intent := INTENT_CUSTOMER, confidence := .finite (9/10), customer_name := name,
         ticket_id := extracted.ticket_id,
         entities := if extracted.isEmpty then none else some extracted,
         raw_json := some (dumpsIntentName INTENT_CUSTOMER name "0.9") }, false⟩
    else
      match llm with
      | some resp =>
        match llmClassifyStep message resp with
        | some r => ⟨r, true⟩
        | none => ⟨defaultBothResult message, true⟩
      | none => ⟨defaultBothResult message, false⟩

/-! ## sqlite_client.py and tools.py -/

/-- A database row as a mapping from column names to (stringified) values. -/
abbrev Row := List (String × String)

/-- sqlite_client.run_query.  db is the sqlite collaborator: .error models a raised
sqlite3.Error.  The Bool records whether the statement reached the database. -/
def runQuery (sql : String) (db : String → Except String (List Row)) : List Row × Bool :=
  if !(strStartsWith (upperS (pyStrip sql)) "SELECT") then
    ([[("error", "Only SELECT queries are allowed.")]], false)
  else
    match db sql with
    | .ok rows => (rows, true)
    | .error e => ([[("error", e)]], true)

def jsonEscape (s : String) : String :=
  String.mk (s.data.foldr (fun c acc =>
    if c = '"' then '\\' :: '"' :: acc
    else if c = '\\' then '\\' :: '\\' :: acc
    else if c = '\n' then '\\' :: 'n' :: acc
    else c :: acc) [])

/-- json.dumps applied to the row list (all values already stringified). -/
def dumpsRows (rows : List Row) : String :=
  "[" ++ String.intercalate ", " (rows.map (fun r =>
    "\x7b" ++ String.intercalate ", " (r.map (fun p =>
      "\"" ++ jsonEscape p.1 ++ "\": \"" ++ jsonEscape p.2 ++ "\"")) ++ "\x7d")) ++ "]"

structure SqlToolEnv where
  llmResp : Except String String
  db : String → Except String (List Row)

/-- tools.py lines 54-58: pick the code-fence part containing select. -/
def fenceSelect (sql : String) : String :=
  if strContains sql "```" then
    match (pySplitAll sql "```").find? (fun part => strContains (lowerS part) "select") with
    | some part => pyStrip part
    | none => sql
  else sql

def notSelectMsg : String :=
  "Generated query was not a SELECT. Please ask about customer or ticket data."

/-- tools.py query_customer_tickets.  Returns the tool output together with a flag
recording whether any statement was executed against the database. -/
def queryCustomerTickets (question : String) (env : SqlToolEnv) : String × Bool :=
  if pyStrip question = "" then
    ("Please provide a question about customers or support tickets.", false)
  else
    match env.llmResp with
    | .error e => ("Error: " ++ e, false)
    | .ok raw =>
      let sql := fenceSelect (pyStrip raw)
      if !(strStartsWith (upperS sql) "SELECT") then (notSelectMsg, false)
      else
        let rq := runQuery sql env.db
        let out :=
          match rq.1 with
          | [] => "SQL: " ++ sql ++ "\nResult: No matching data found."
          | [r] =>
            if r.any (fun p => p.1 = "error") then
              "SQL: " ++ sql ++ "\nResult: Query error: " ++
                (((r.find? (fun p => p.1 = "error")).map Prod.snd).getD "")
            else "SQL: " ++ sql ++ "\nResult: " ++ pyTake 8000 (dumpsRows rq.1)
          | _ => "SQL: " ++ sql ++ "\nResult: " ++ pyTake 8000 (dumpsRows rq.1)
        (out, rq.2)

/-! ## agent.py: invoke -/

/-- agent.py _parse_sql_tool_output. -/
def parseSqlToolOutput (output : String) : Option String × Option String :=
  if strContains output "SQL:" && strContains output "Result:" then
    let parts := pySplitOnce output "\nResult:"
    (some (pyStrip (pyReplaceAll parts.1 "SQL:" "")), parts.2.map pyStrip)
  else (none, none)

structure NlpDetails where
  intent : String
  confidence : PyFloat
  entities : EntityBag
deriving DecidableEq, Repr

/-- agent.py AgentResponse dataclass. -/
structure AgentResponse where
  answer : String
  sql_query : Option String := none
  sql_result : Option String := none
  retrieval_used : Bool := false
  retrieval_snippet : Option String := none
  internal_query : Option String := none
  nlp_details : Option NlpDetails := none
  agent_selection : Option String := none
  raw_tool_output : Option String := none
deriving DecidableEq, Repr

/-- Oracles for the external collaborators of one invoke request: the
intent-classification model call, the two tool invocations (as seen from agent.py,
.error modelling a raised exception) and the final answer-composition model call. -/
structure Env where
  classifyLLM : Except String String
  sqlTool : Except String String
  retrieverTool : Except String String
  finalLLM : Except String String

def pyTruthyOptS : Option String → Bool
  | some s => s != ""
  | none => false

/-- agent.py lines 118-122: entity dict shown in nlp_details. -/
def uiEntities (ir : IntentResult) : EntityBag :=
  let e := ir.entities.getD EntityBag.empty
  let e := if pyTruthyOptS ir.customer_name && e.customer_name.isNone then
      { e with customer_name := ir.customer_name } else e
  if pyTruthyOptS ir.ticket_id && e.ticket_id.isNone then
    { e with ticket_id := ir.ticket_id } else e

/-- agent.py lines 126-130. -/
def selectedTools (intentV : String) : List String :=
  if intentV = INTENT_BOTH then ["query_customer_tickets", "search_policy_documents"]
  else if intentV = INTENT_CUSTOMER then ["query_customer_tickets"]
  else ["search_policy_documents"]

structure ToolStepOut where
  sql_query : Option String := none
  sql_result : Option String := none
  outputs : List String := []
  called : Bool := false
deriving DecidableEq, Repr

structure RetrStepOut where
  used : Bool := false
  snippet : Option String := none
  outputs : List String := []
  called : Bool := false
deriving DecidableEq, Repr

/-- agent.py lines 142-155: the guarded SQL-tool call. -/
def sqlStepRun (intentV : String) (env : Env) : ToolStepOut :=
  if intentV = INTENT_CUSTOMER ∨ intentV = INTENT_BOTH then
    match env.sqlTool with
    | .ok out =>
      let p := parseSqlToolOutput out
      { sql_query := p.1, sql_result := p.2, outputs := ["SQL tool: " ++ pyTake 500 out],
        called := true }
    | .error e =>
      { sql_result := some ("Error: " ++ e), outputs := ["SQL tool error: " ++ e],
        called := true }
  else {}

/-- agent.py lines 157-166: the guarded retriever call. -/
def retrStepRun (intentV : String) (env : Env) : RetrStepOut :=
  if intentV = INTENT_POLICY ∨ intentV = INTENT_BOTH then
    match env.retrieverTool with
    | .ok out =>
      { used := true,
        snippet := if out = "" then none else some (pyTake 2000 out),
        outputs := ["Retriever: " ++ (if out = "" then "No results" else pyTake 500 out)],
        called := true }
    | .error e =>
      { snippet := some ("Error: " ++ e), outputs := ["Retriever error: " ++ e],
        called := true }
  else {}

def noDataSentinel : String :=
  "No data was retrieved. Tell the user no matching data was found and do not invent any information."

/-- agent.py lines 168-176: context assembly. -/
def buildContextParts (sqlRes snip : Option String) : List String :=
  let parts : List String := []
  let parts := match sqlRes with
    | some v => parts ++ ["Customer/ticket data:\n" ++ v]
    | none => parts
  let parts := match snip with
    | some v => if v = "" then parts else parts ++ ["Policy/relevant documents:\n" ++ v]
    | none => parts
  if parts = [] then [noDataSentinel] else parts

def fallbackAnswerPre : String := "I couldn" ++ String.mk [apos] ++ "t complete the request: "

def genericFallbackAnswer : String := "I couldn" ++ String.mk [apos] ++ "t generate a response."

def clarificationAnswer : String :=
  "Please provide a question about a customer, support tickets, or company policy."

/-- Everything agent.py invoke records during one request, plus which collaborators
were actually called. -/
structure InvokeTrace where
  response : AgentResponse
  sqlCalled : Bool
  retrieverCalled : Bool
  classifyLLMCalled : Bool
  finalLLMCalled : Bool
  snippetFlow : Option String
  contextParts : List String
deriving DecidableEq, Repr

/-- agent.py invoke after the empty-input early return (lines 110-215). -/
def mainInvoke (raw_query : String) (env : Env) : InvokeTrace :=
  let co := classify raw_query (some env.classifyLLM)
  let ir := co.result
  let entities := uiEntities ir
  let tools := selectedTools ir.intent
  let ts := sqlStepRun ir.intent env
  let rs := retrStepRun ir.intent env
  let tool_outputs := ts.outputs ++ rs.outputs
  let context_parts := buildContextParts ts.sql_result rs.snippet
  let raw_answer := match env.finalLLM with
    | .ok c => c
    | .error e => fallbackAnswerPre ++ e
  let nlp : NlpDetails := { intent := ir.intent, confidence := ir.confidence, entities := entities }
  { response := {
      answer := if raw_answer = "" then genericFallbackAnswer else raw_answer,
      sql_query := ts.sql_query,
      sql_result := ts.sql_result,
      retrieval_used := rs.used,
      retrieval_snippet := match rs.snippet with
        | some s => if s = "" then none else some (pyTake 2000 s)
        | none => none,
      internal_query := some raw_query,
      nlp_details := some nlp,
      agent_selection := some (String.intercalate ", " tools),
      raw_tool_output := if tool_outputs = [] then none
        else some (String.intercalate " | " tool_outputs) },
    sqlCalled := ts.called,
    retrieverCalled := rs.called,
    classifyLLMCalled := co.llmCalled,
    finalLLMCalled := true,
    snippetFlow := rs.snippet,
    contextParts := context_parts }

/-- agent.py invoke (lines 91-215). -/
def invoke (message : String) (env : Env) : InvokeTrace :=
  let raw_query := pyStrip message
  if raw_query = "" then
    { response := {
        answer := clarificationAnswer,
        internal_query := some raw_query,
        nlp_details := some { intent := "none", confidence := .finite 0, entities := EntityBag.empty },
        agent_selection := some "none" },
      sqlCalled := false, retrieverCalled := false, classifyLLMCalled := false,
      finalLLMCalled := false, snippetFlow := none, contextParts := [] }
  else mainInvoke raw_query env

/-- The concrete request named by the specification. -/
def deniseMsg : String := "Does Denise Lee qualify under the refund policy?"

/-- A concrete environment in which every collaborator succeeds. -/
def envA : Env :=
  ⟨Except.ok "cls", Except.ok "SQL: SELECT 1\nResult: ok", Except.ok "docs", Except.ok "answer"⟩

/-- A concrete environment in which the SQL tool invocation raises. -/
def envBoom : Env :=
  ⟨Except.ok "cls", Except.error "boom", Except.ok "docs", Except.ok "answer"⟩

/-- A concrete environment in which the final model call raises. -/
def envErrFinal : Env :=
  ⟨Except.ok "cls", Except.error "boom", Except.ok "docs", Except.error "llm down"⟩

/-- A model reply whose JSON parses but carries an invalid intent value. -/
def weirdIntentJson : String := "\x7b\"intent\": \"weird\"\x7d"

/-! # Helper lemmas -/

theorem append_ne_empty_left (a b : String) (h : a ≠ "") : a ++ b ≠ "" := by
  intro hc
  have h2 := congrArg String.data hc
  rw [String.data_append] at h2
  exact h (String.ext (List.append_eq_nil.mp h2).1)

theorem containsList_of_prefix {h n : List Char} (hp : n <+: h) : containsList h n = true := by
  cases h with
  | nil =>
    have hn : n = [] := List.prefix_nil.mp hp
    simp [containsList, hn]
  | cons c t =>
    have hb : n.isPrefixOf (c :: t) = true := List.isPrefixOf_iff_prefix.mpr hp
    simp [containsList, hb]

theorem containsList_of_infix {h n : List Char} (hi : n <:+: h) : containsList h n = true := by
  induction h with
  | nil =>
    have hn := List.eq_nil_of_infix_nil hi
    simp [containsList, hn]
  | cons c t ih =>
    rcases List.infix_cons_iff.mp hi with hp | ht
    · exact containsList_of_prefix hp
    · simp [containsList, ih ht]

theorem prefix_of_containsList {h n : List Char} (hc : containsList h n = true) : n <:+: h := by
  induction h with
  | nil =>
    simp [containsList, List.isEmpty_iff] at hc
    simp [hc]
  | cons c t ih =>
    simp only [containsList, Bool.or_eq_true] at hc
    rcases hc with hp | ht
    · exact (List.isPrefixOf_iff_prefix.mp hp).isInfix
    · exact List.infix_cons_iff.mpr (Or.inr (ih ht))

theorem containsList_append_head_notin {a b : List Char} {d : Char} {n : List Char}
    (hd : d ∉ a) : containsList (a ++ b) (d :: n) = containsList b (d :: n) := by
  induction a with
  | nil => rfl
  | cons c t ih =>
    have hd' : d ∉ t := fun hm => hd (List.mem_cons_of_mem _ hm)
    have hdc : d ≠ c := fun he => hd (he ▸ List.mem_cons_self c t)
    have hne : (d :: n).isPrefixOf (c :: (t ++ b)) = false := by
      simp [List.isPrefixOf, hdc]
    simp [containsList, hne, ih hd']

theorem dropWhile_head_not {p : Char → Bool} {l : List Char} {c : Char}
    (h : (l.dropWhile p).head? = some c) : p c = false := by
  induction l with
  | nil => simp [List.dropWhile] at h
  | cons a t ih =>
    rw [List.dropWhile_cons] at h
    by_cases hp : p a
    · rw [if_pos hp] at h
      exact ih h
    · rw [if_neg hp] at h
      simp only [List.head?_cons, Option.some.injEq] at h
      subst h
      simpa using hp

theorem dropWhile_eq_self_of_head {p : Char → Bool} {l : List Char}
    (h : ∀ c, l.head? = some c → p c = false) : l.dropWhile p = l := by
  cases l with
  | nil => rfl
  | cons a t =>
    rw [List.dropWhile_cons, if_neg (by simp [h a rfl])]

theorem getLast?_dropWhile {p : Char → Bool} {l : List Char}
    (h : l.dropWhile p ≠ []) : (l.dropWhile p).getLast? = l.getLast? := by
  obtain ⟨s, hs⟩ := List.dropWhile_suffix p (l := l)
  conv_rhs => rw [← hs]
  rw [List.getLast?_append_of_ne_nil _ h]

theorem stripList_idem (l : List Char) : stripList (stripList l) = stripList l := by
  unfold stripList
  have h1 : ((l.dropWhile isPySpace).reverse.dropWhile isPySpace).reverse.dropWhile isPySpace
      = ((l.dropWhile isPySpace).reverse.dropWhile isPySpace).reverse := by
    apply dropWhile_eq_self_of_head
    intro c hc
    rw [List.head?_reverse] at hc
    by_cases hBnil : (l.dropWhile isPySpace).reverse.dropWhile isPySpace = []
    · rw [hBnil] at hc
      simp at hc
    · rw [getLast?_dropWhile hBnil, List.getLast?_reverse] at hc
      exact dropWhile_head_not hc
  rw [h1, List.reverse_reverse]
  have h2 : ((l.dropWhile isPySpace).reverse.dropWhile isPySpace).dropWhile isPySpace
      = (l.dropWhile isPySpace).reverse.dropWhile isPySpace := by
    apply dropWhile_eq_self_of_head
    intro c hc
    exact dropWhile_head_not hc
  rw [h2]

theorem pyStrip_idem (s : String) : pyStrip (pyStrip s) = pyStrip s :=
  congrArg String.mk (stripList_idem s.data)

theorem classify_pyStrip (msg : String) (llm : Option (Except String String)) :
    classify (pyStrip msg) llm = classify msg llm := by
  unfold classify
  rw [pyStrip_idem]

theorem entityBag_eq_empty {b : EntityBag} (h : b.isEmpty = true) : b = EntityBag.empty := by
  cases b with
  | mk cn ce pp ti ts =>
    simp only [EntityBag.isEmpty, Bool.and_eq_true, Option.isNone_iff_eq_none] at h
    obtain ⟨⟨⟨⟨h1, h2⟩, h3⟩, h4⟩, h5⟩ := h
    simp [EntityBag.empty, h1, h2, h3, h4, h5]

theorem getD_entityOpt (b : EntityBag) :
    (if b.isEmpty then (none : Option EntityBag) else some b).getD EntityBag.empty = b := by
  by_cases h : b.isEmpty
  · rw [if_pos h]
    simpa using (entityBag_eq_empty h).symm
  · rw [if_neg h]
    rfl

theorem invoke_ne (msg : String) (env : Env) (h : pyStrip msg ≠ "") :
    invoke msg env = mainInvoke (pyStrip msg) env := by
  unfold invoke
  rw [if_neg h]

theorem mainInvoke_sqlCalled (q : String) (env : Env) :
    (mainInvoke q env).sqlCalled
      = (sqlStepRun (classify q (some env.classifyLLM)).result.intent env).called := rfl

theorem mainInvoke_retrieverCalled (q : String) (env : Env) :
    (mainInvoke q env).retrieverCalled
      = (retrStepRun (classify q (some env.classifyLLM)).result.intent env).called := rfl

theorem mainInvoke_contextParts (q : String) (env : Env) :
    (mainInvoke q env).contextParts
      = buildContextParts (mainInvoke q env).response.sql_result (mainInvoke q env).snippetFlow := rfl

theorem sqlStepRun_called_iff (i : String) (env : Env) :
    (sqlStepRun i env).called = true ↔ (i = INTENT_CUSTOMER ∨ i = INTENT_BOTH) := by
  unfold sqlStepRun
  by_cases h : i = INTENT_CUSTOMER ∨ i = INTENT_BOTH
  · rw [if_pos h]
    cases env.sqlTool <;> simp [h]
  · rw [if_neg h]
    simp [h]

theorem retrStepRun_called_iff (i : String) (env : Env) :
    (retrStepRun i env).called = true ↔ (i = INTENT_POLICY ∨ i = INTENT_BOTH) := by
  unfold retrStepRun
  by_cases h : i = INTENT_POLICY ∨ i = INTENT_BOTH
  · rw [if_pos h]
    cases env.retrieverTool <;> simp [h]
  · rw [if_neg h]
    simp [h]

theorem invoke_sqlCalled_iff (msg : String) (env : Env) (h : pyStrip msg ≠ "") :
    ((invoke msg env).sqlCalled = true ↔
      ((classify msg (some env.classifyLLM)).result.intent = INTENT_CUSTOMER ∨
       (classify msg (some env.classifyLLM)).result.intent = INTENT_BOTH)) := by
  rw [invoke_ne msg env h, mainInvoke_sqlCalled, classify_pyStrip]
  exact sqlStepRun_called_iff _ _

theorem invoke_retrieverCalled_iff (msg : String) (env : Env) (h : pyStrip msg ≠ "") :
    ((invoke msg env).retrieverCalled = true ↔
      ((classify msg (some env.classifyLLM)).result.intent = INTENT_POLICY ∨
       (classify msg (some env.classifyLLM)).result.intent = INTENT_BOTH)) := by
  rw [invoke_ne msg env h, mainInvoke_retrieverCalled, classify_pyStrip]
  exact retrStepRun_called_iff _ _

theorem hasPolicyHeur_ne_empty {msg : String} (hp : hasPolicyHeur (pyStrip msg) = true) :
    pyStrip msg ≠ "" := by
  intro h0
  rw [h0] at hp
  exact absurd hp (by decide)

theorem classify_policy_branch (msg : String) (llm : Option (Except String String))
    (hp : hasPolicyHeur (pyStrip msg) = true)
    (hc : hasCustomerHeur (pyStrip msg) = false)
    (hn : hasPersonName (pyStrip msg) = false)
    (he : (extractEntities (pyStrip msg)).isEmpty = true) :
    classify msg llm
      = ⟨{ intent := INTENT_POLICY, confidence := .finite (95/100), entities := some EntityBag.empty,
           raw_json := some "\x7b\"intent\": \"policy\", \"confidence\": 0.95\x7d" }, false⟩ := by
  have hne : pyStrip msg ≠ "" := hasPolicyHeur_ne_empty hp
  simp [classify, hne, hp, hc, hn, he]

theorem classify_both_branch (msg : String) (llm : Option (Except String String))
    (hp : hasPolicyHeur (pyStrip msg) = true)
    (hsig : hasCustomerHeur (pyStrip msg) = true ∨ hasPersonName (pyStrip msg) = true ∨
      (extractEntities (pyStrip msg)).isEmpty = false) :
    classify msg llm
      = ⟨{ intent := INTENT_BOTH, confidence := .finite (9/10),
           customer_name := (match (extractEntities (pyStrip msg)).customer_name with
             | some n => some n
             | none => extractCustomerNameFromText (pyStrip msg)),
           ticket_id := (extractEntities (pyStrip msg)).ticket_id,
           entities := if (extractEntities (pyStrip msg)).isEmpty then none
             else some (extractEntities (pyStrip msg)),
           raw_json := some (dumpsIntentName INTENT_BOTH
             (match (extractEntities (pyStrip msg)).customer_name with
              | some n => some n
              | none => extractCustomerNameFromText (pyStrip msg)) "0.9") }, false⟩ := by
  have hne : pyStrip msg ≠ "" := hasPolicyHeur_ne_empty hp
  rcases hsig with h | h | h <;> simp [classify, hne, hp, h]

theorem classify_llm_path (msg : String) (llm : Option (Except String String))
    (h0 : pyStrip msg ≠ "")
    (hp : hasPolicyHeur (pyStrip msg) = false)
    (hc : hasCustomerHeur (pyStrip msg) = false)
    (hn : hasPersonName (pyStrip msg) = false)
    (he : (extractEntities (pyStrip msg)).isEmpty = true) :
    classify msg llm = (match llm with
      | some resp => (match llmClassifyStep (pyStrip msg) resp with
          | some r => ⟨r, true⟩
          | none => ⟨defaultBothResult (pyStrip msg), true⟩)
      | none => ⟨defaultBothResult (pyStrip msg), false⟩) := by
  simp [classify, h0, hp, hc, hn, he]

theorem defaultBothResult_entities (m : String) :
    (defaultBothResult m).entities
      = if (extractEntities m).isEmpty then none else some (extractEntities m) := rfl

theorem llmClassifyStep_entities {m : String} {resp : Except String String} {r : IntentResult}
    (h : llmClassifyStep m resp = some r) :
    r.entities = if (extractEntities m).isEmpty then none else some (extractEntities m) := by
  cases resp with
  | error e => simp [llmClassifyStep] at h
  | ok raw =>
    simp only [llmClassifyStep] at h
    rcases hj : jsonLoads (fenceStrip (pyStrip raw)) with _ | v
    · rw [hj] at h
      simp at h
    · rw [hj] at h
      simp only [] at h
      cases v with
      | jobj l =>
        simp only [] at h
        rcases ho : pyOrBothLower (dictGet l "intent") with _ | s
        · rw [ho] at h
          simp at h
        · rw [ho] at h
          simp only [] at h
          rcases hf : pyFloatJ ((dictGet l "confidence").getD (.jnum (.finite (8/10)))) with _ | q
          · rw [hf] at h
            simp at h
          · rw [hf] at h
            simp only [Option.some.injEq] at h
            rw [← h]
      | jnull => simp at h
      | jbool b => simp at h
      | jnum q => simp at h
      | jstr s => simp at h
      | jarr a => simp at h

/-- C4: an input with a policy keyword and no customer keyword, no person name and
no extracted entity is classified Policy at confidence exactly 0.95 (which is at
least 0.9), without calling the model, and the tabular store is never invoked for
that request. -/
theorem claim4_policy_only (msg : String) (env : Env)
    (hp : hasPolicyHeur (pyStrip msg) = true)
    (hc : hasCustomerHeur (pyStrip msg) = false)
    (hn : hasPersonName (pyStrip msg) = false)
    (he : (extractEntities (pyStrip msg)).isEmpty = true) :
    (classify msg (some env.classifyLLM)).result.intent = INTENT_POLICY ∧
    (classify msg (some env.classifyLLM)).result.confidence = PyFloat.finite (95/100) ∧
    ((95 : ℚ)/100 ≥ 9/10) ∧
    (classify msg (some env.classifyLLM)).llmCalled = false ∧
    (invoke msg env).sqlCalled = false := by
  have hne : pyStrip msg ≠ "" := hasPolicyHeur_ne_empty hp
  have hcl := classify_policy_branch msg (some env.classifyLLM) hp hc hn he
  have hiff := invoke_sqlCalled_iff msg env hne
  rw [hcl] at hiff ⊢
  refine ⟨rfl, rfl, by norm_num, rfl, ?_⟩
  simp only [show (INTENT_POLICY = INTENT_CUSTOMER ∨ INTENT_POLICY = INTENT_BOTH) ↔ False
    by simp [INTENT_POLICY, INTENT_CUSTOMER, INTENT_BOTH], iff_false, Bool.not_eq_true] at hiff
  exact hiff

/-- C5: a policy keyword together with a customer keyword, a person name or an
extracted entity classifies as Both at confidence 0.9 without a model call; on the
Denise Lee question the intent is Both, confidence 0.9 (at least 0.8), the extracted
customer name is Denise Lee, and both stores are invoked. -/
theorem claim5_policy_plus_person :
    (∀ (msg : String) (llm : Option (Except String String)),
      hasPolicyHeur (pyStrip msg) = true →
      (hasCustomerHeur (pyStrip msg) = true ∨ hasPersonName (pyStrip msg) = true ∨
        (extractEntities (pyStrip msg)).isEmpty = false) →
      (classify msg llm).result.intent = INTENT_BOTH ∧
      (classify msg llm).result.confidence = PyFloat.finite (9/10) ∧
      (classify msg llm).llmCalled = false) ∧
    (∀ env : Env,
      (classify deniseMsg (some env.classifyLLM)).result.intent = INTENT_BOTH ∧
      (classify deniseMsg (some env.classifyLLM)).result.confidence = PyFloat.finite (9/10) ∧
      ((9 : ℚ)/10 ≥ 8/10) ∧
      (classify deniseMsg (some env.classifyLLM)).result.customer_name = some "Denise Lee" ∧
      (invoke deniseMsg env).sqlCalled = true ∧
      (invoke deniseMsg env).retrieverCalled = true) := by
  constructor
  · intro msg llm hp hsig
    rw [classify_both_branch msg llm hp hsig]
    exact ⟨rfl, rfl, rfl⟩
  · intro env
    have hp : hasPolicyHeur (pyStrip deniseMsg) = true := by decide
    have hsig : hasCustomerHeur (pyStrip deniseMsg) = true ∨
        hasPersonName (pyStrip deniseMsg) = true ∨
        (extractEntities (pyStrip deniseMsg)).isEmpty = false :=
      Or.inr (Or.inl (by decide))
    have hne : pyStrip deniseMsg ≠ "" := hasPolicyHeur_ne_empty hp
    have hcl := classify_both_branch deniseMsg (some env.classifyLLM) hp hsig
    refine ⟨by rw [hcl], by rw [hcl], by norm_num, ?_, ?_, ?_⟩
    · rw [hcl]
      decide
    · exact (invoke_sqlCalled_iff deniseMsg env hne).mpr (Or.inr (by rw [hcl]))
    · exact (invoke_retrieverCalled_iff deniseMsg env hne).mpr (Or.inr (by rw [hcl]))

/-- C6: empty or whitespace-only input is classified Both at confidence exactly 0,
and the end-to-end response is the clarification message with no store call and no
model call of either kind. -/
theorem claim6_empty_input (msg : String) (env : Env) (llm : Option (Except String String))
    (h : pyStrip msg = "") :
    (classify msg llm).result.intent = INTENT_BOTH ∧
    (classify msg llm).result.confidence = PyFloat.finite 0 ∧
    (invoke msg env).response.answer = clarificationAnswer ∧
    (invoke msg env).sqlCalled = false ∧
    (invoke msg env).retrieverCalled = false ∧
    (invoke msg env).classifyLLMCalled = false ∧
    (invoke msg env).finalLLMCalled = false := by
  unfold classify invoke
  simp [h]

/-- C8: for every non-empty input, whatever branch of the classifier fires, the
entities of the returned decision agree with the extractor output on the stripped
message (the empty entity dict appearing either as an absent field or as the empty
bag on the policy-only branch). -/
theorem claim8_entities_merged (msg : String) (llm : Option (Except String String))
    (h : pyStrip msg ≠ "") :
    ((classify msg llm).result.entities.getD EntityBag.empty) = extractEntities (pyStrip msg) := by
  have hgetD := getD_entityOpt (extractEntities (pyStrip msg))
  simp only [classify]
  rw [if_neg h]
  by_cases h1 : (hasPolicyHeur (pyStrip msg)
      && (hasCustomerHeur (pyStrip msg)
        || (hasPersonName (pyStrip msg) || !(extractEntities (pyStrip msg)).isEmpty))) = true
  · rw [if_pos h1]
    exact hgetD
  · rw [if_neg h1]
    by_cases h2 : (hasPolicyHeur (pyStrip msg) && !hasCustomerHeur (pyStrip msg)
        && !(hasPersonName (pyStrip msg) || !(extractEntities (pyStrip msg)).isEmpty)) = true
    · rw [if_pos h2]
      have he : (extractEntities (pyStrip msg)).isEmpty = true := by
        simp only [Bool.and_eq_true] at h2
        have h3 := h2.2
        simp only [Bool.not_eq_true', Bool.or_eq_false_iff] at h3
        simpa using h3.2
      simpa using (entityBag_eq_empty he).symm
    · rw [if_neg h2]
      by_cases h3 : (hasCustomerHeur (pyStrip msg)
          || (hasPersonName (pyStrip msg) || !(extractEntities (pyStrip msg)).isEmpty)) = true
      · rw [if_pos h3]
        exact hgetD
      · rw [if_neg h3]
        cases llm with
        | none =>
          simp only [defaultBothResult]
          exact hgetD
        | some resp =>
          cases hstep : llmClassifyStep (pyStrip msg) resp with
          | none =>
            simp only [hstep, defaultBothResult]
            exact hgetD
          | some r =>
            simp only [hstep]
            rw [llmClassifyStep_entities hstep]
            exact hgetD

/-- C1: for every non-empty request, query_customer_tickets is invoked iff the
classified intent is Customer or Both, and search_policy_documents is invoked iff
the intent is Policy or Both; a source excluded by the intent is never invoked. -/
theorem claim1_routing (msg : String) (env : Env) (h : pyStrip msg ≠ "") :
    ((invoke msg env).sqlCalled = true ↔
      ((classify msg (some env.classifyLLM)).result.intent = INTENT_CUSTOMER ∨
       (classify msg (some env.classifyLLM)).result.intent = INTENT_BOTH)) ∧
    ((invoke msg env).retrieverCalled = true ↔
      ((classify msg (some env.classifyLLM)).result.intent = INTENT_POLICY ∨
       (classify msg (some env.classifyLLM)).result.intent = INTENT_BOTH)) :=
  ⟨invoke_sqlCalled_iff msg env h, invoke_retrieverCalled_iff msg env h⟩

theorem buildContextParts_spec (s r : Option String) :
    buildContextParts s r =
      (match s with
        | some v => ["Customer/ticket data:\n" ++ v]
        | none => []) ++
      (match r with
        | some v => if v = "" then [] else ["Policy/relevant documents:\n" ++ v]
        | none => []) ++
      (if s = none ∧ (r = none ∨ r = some "") then [noDataSentinel] else []) := by
  cases s with
  | some v =>
    cases r with
    | some w => by_cases hw : w = "" <;> simp [buildContextParts, hw]
    | none => simp [buildContextParts]
  | none =>
    cases r with
    | some w => by_cases hw : w = "" <;> simp [buildContextParts, hw]
    | none => simp [buildContextParts]

theorem mainInvoke_sql_result (q : String) (env : Env) :
    (mainInvoke q env).response.sql_result
      = (sqlStepRun (classify q (some env.classifyLLM)).result.intent env).sql_result := rfl

theorem mainInvoke_snippetFlow (q : String) (env : Env) :
    (mainInvoke q env).snippetFlow
      = (retrStepRun (classify q (some env.classifyLLM)).result.intent env).snippet := rfl

/-- C2 (amended): for every non-empty request the context is built by appending, in
order, the tabular block whenever the sql_result flow variable is set (which
includes the error text of an agent-level tool exception), then the document block
when the snippet is present and non-empty, and the sentinel block alone exactly
when the tabular payload is absent and the document payload is absent or empty. -/
theorem claim2_context_assembly (msg : String) (env : Env) (h : pyStrip msg ≠ "") :
    (invoke msg env).contextParts =
      (match (invoke msg env).response.sql_result with
        | some v => ["Customer/ticket data:\n" ++ v]
        | none => []) ++
      (match (invoke msg env).snippetFlow with
        | some v => if v = "" then [] else ["Policy/relevant documents:\n" ++ v]
        | none => []) ++
      (if (invoke msg env).response.sql_result = none ∧
          ((invoke msg env).snippetFlow = none ∨ (invoke msg env).snippetFlow = some "")
        then [noDataSentinel] else []) := by
  rw [invoke_ne msg env h, mainInvoke_contextParts]
  exact buildContextParts_spec _ _

/-- C2 counterexample: on a customer-intent request whose SQL-tool invocation
raises, the failed tabular outcome's error text does appear as a data block in the
context, contradicting the claim that it must not. -/
theorem claim2_counterexample :
    (invoke "ticket history" envBoom).response.sql_result = some ("Error: " ++ "boom") ∧
    (invoke "ticket history" envBoom).contextParts
      = ["Customer/ticket data:\n" ++ "Error: boom"] :=
  ⟨by decide, by decide⟩

theorem mainInvoke_answer (q : String) (env : Env) :
    (mainInvoke q env).response.answer
      = (let raw := match env.finalLLM with
          | .ok c => c
          | .error e => fallbackAnswerPre ++ e
         if raw = "" then genericFallbackAnswer else raw) := rfl

/-- C3: invoke always returns a response whose answer is non-empty (it is a total
function of the request and the collaborator outcomes, so no exception reaches the
caller); when the final model call raises, the answer is the apologetic fallback
embedding the error text, and every other response field is exactly the one
produced with any other final-model outcome (the diagnostics collected so far). -/
theorem claim3_total_answer (msg : String) (env : Env) :
    (invoke msg env).response.answer ≠ "" ∧
    (∀ e : String, env.finalLLM = Except.error e → pyStrip msg ≠ "" →
      (invoke msg env).response.answer = fallbackAnswerPre ++ e) ∧
    (∀ f : Except String String,
      (invoke msg { env with finalLLM := f }).response =
        { (invoke msg env).response with
            answer := (invoke msg { env with finalLLM := f }).response.answer }) := by
  refine ⟨?_, ?_, ?_⟩
  · by_cases h : pyStrip msg = ""
    · unfold invoke
      rw [if_pos h]
      exact (show clarificationAnswer ≠ "" by decide)
    · rw [invoke_ne msg env h, mainInvoke_answer]
      cases henv : env.finalLLM with
      | ok c =>
        simp only []
        split
        · decide
        · next h2 => exact h2
      | error e =>
        simp only []
        rw [if_neg (append_ne_empty_left _ _ (by decide))]
        exact append_ne_empty_left _ _ (by decide)
  · intro e he hne
    rw [invoke_ne msg env hne, mainInvoke_answer, he]
    simp only []
    rw [if_neg (append_ne_empty_left _ _ (by decide))]
  · intro f
    by_cases h : pyStrip msg = ""
    · unfold invoke
      rw [if_pos h, if_pos h]
    · rw [invoke_ne _ _ h, invoke_ne _ _ h]
      rfl

/-- C7 (amended): on the model-fallback path, a model invocation failure or an
output that fails to parse as JSON yields Both at confidence exactly 0.5; an output
that parses but carries an invalid intent value yields intent Both with the
confidence taken from the parsed object (default 0.8), not 0.5.  The classifier is
a total function, so it never raises past this point. -/
theorem claim7_fallback (msg : String)
    (h0 : pyStrip msg ≠ "")
    (hp : hasPolicyHeur (pyStrip msg) = false)
    (hc : hasCustomerHeur (pyStrip msg) = false)
    (hn : hasPersonName (pyStrip msg) = false)
    (he : (extractEntities (pyStrip msg)).isEmpty = true) :
    (∀ e : String,
      (classify msg (some (Except.error e))).result.intent = INTENT_BOTH ∧
      (classify msg (some (Except.error e))).result.confidence = PyFloat.finite (1/2) ∧
      (classify msg (some (Except.error e))).llmCalled = true) ∧
    (∀ c : String, jsonLoads (fenceStrip (pyStrip c)) = none →
      (classify msg (some (Except.ok c))).result.intent = INTENT_BOTH ∧
      (classify msg (some (Except.ok c))).result.confidence = PyFloat.finite (1/2) ∧
      (classify msg (some (Except.ok c))).llmCalled = true) ∧
    (∀ (c : String) (l : List (String × JVal)) (s : String) (q : PyFloat),
      jsonLoads (fenceStrip (pyStrip c)) = some (JVal.jobj l) →
      pyOrBothLower (dictGet l "intent") = some s →
      s ≠ INTENT_POLICY → s ≠ INTENT_CUSTOMER → s ≠ INTENT_BOTH →
      pyFloatJ ((dictGet l "confidence").getD (JVal.jnum (.finite (8/10)))) = some q →
      (classify msg (some (Except.ok c))).result.intent = INTENT_BOTH ∧
      (classify msg (some (Except.ok c))).result.confidence = q) := by
  refine ⟨?_, ?_, ?_⟩
  · intro e
    rw [classify_llm_path msg _ h0 hp hc hn he]
    exact ⟨rfl, rfl, rfl⟩
  · intro c hjson
    rw [classify_llm_path msg _ h0 hp hc hn he]
    have hstep : llmClassifyStep (pyStrip msg) (Except.ok c) = none := by
      simp only [llmClassifyStep, hjson]
    simp [hstep, defaultBothResult]
  · intro c l s q hjson hint hs1 hs2 hs3 hfl
    rw [classify_llm_path msg _ h0 hp hc hn he]
    have hstep : llmClassifyStep (pyStrip msg) (Except.ok c)
        = some { intent := INTENT_BOTH, confidence := q,
                 customer_name := pyOrJStr (dictGet l "customer_name")
                   (extractCustomerNameFromText (pyStrip msg)),
                 ticket_id := jToOptStr (dictGet l "ticket_id"),
                 entities := if (extractEntities (pyStrip msg)).isEmpty then none
                   else some (extractEntities (pyStrip msg)),
                 raw_json := some (fenceStrip (pyStrip c)) } := by
      simp only [llmClassifyStep, hjson, hint, hfl]
      simp [hs1, hs2, hs3]
    simp [hstep]

/-- C7 counterexample: a parsed model output with an invalid intent value is
classified Both but at the confidence taken from the object (here the 0.8 default),
not at 0.5 as the claim states. -/
theorem claim7_counterexample :
    (classify "hello there" (some (Except.ok weirdIntentJson))).result.intent = INTENT_BOTH ∧
    (classify "hello there" (some (Except.ok weirdIntentJson))).result.confidence
        = PyFloat.finite (8/10) ∧
    PyFloat.finite (8/10) ≠ PyFloat.finite (1/2) :=
  ⟨rfl, rfl, by intro h; exact absurd (PyFloat.finite.inj h) (by norm_num)⟩

/-- C9: the SQL tool rejects any model output that, after code-fence selection and
trimming, does not begin with SELECT case-insensitively, returning the failure
message without touching the database; and run_query itself rejects any statement
whose trimmed uppercase form does not start with SELECT, returning the single
error-marker row without executing it. -/
theorem claim9_select_guard :
    (∀ (question : String) (env : SqlToolEnv) (c : String),
      pyStrip question ≠ "" →
      env.llmResp = Except.ok c →
      strStartsWith (upperS (fenceSelect (pyStrip c))) "SELECT" = false →
      queryCustomerTickets question env = (notSelectMsg, false)) ∧
    (∀ (sql : String) (db : String → Except String (List Row)),
      strStartsWith (upperS (pyStrip sql)) "SELECT" = false →
      runQuery sql db = ([[("error", "Only SELECT queries are allowed.")]], false)) := by
  constructor
  · intro question env c hq hc hsel
    unfold queryCustomerTickets
    rw [if_neg hq, hc]
    simp only [hsel]
    rfl
  · intro sql db hsql
    unfold runQuery
    rw [if_pos (by simp [hsql])]

theorem splitOnceList_append {sep : List Char} (x y : List Char)
    (hsep : sep ≠ [])
    (hov : ∀ k, k < sep.length → 0 < k → sep.drop k ≠ sep.take (sep.length - k))
    (hx : containsList x sep = false) :
    splitOnceList sep (x ++ (sep ++ y)) = (x, some y) := by
  induction x with
  | nil =>
    simp only [List.nil_append]
    obtain ⟨s0, st, rfl⟩ : ∃ s0 st, sep = s0 :: st := by
      cases sep with
      | nil => exact absurd rfl hsep
      | cons s0 st => exact ⟨s0, st, rfl⟩
    have hpre : (s0 :: st).isPrefixOf (s0 :: (st ++ y)) = true :=
      List.isPrefixOf_iff_prefix.mpr (List.prefix_append _ _)
    show splitOnceList (s0 :: st) (s0 :: (st ++ y)) = ([], some y)
    simp only [splitOnceList]
    rw [if_pos (by simp [hpre])]
    simp [List.drop_left]
  | cons c t ih =>
    have hx2 : (sep.isPrefixOf (c :: t) || containsList t sep) = false := hx
    rw [Bool.or_eq_false_iff] at hx2
    have hnotpre : sep.isPrefixOf (c :: (t ++ (sep ++ y))) = false := by
      by_contra hcon
      have hX : sep.isPrefixOf (c :: (t ++ (sep ++ y))) = true := by
        revert hcon
        cases sep.isPrefixOf (c :: (t ++ (sep ++ y))) <;> simp
      have hPre : sep <+: (c :: t) ++ (sep ++ y) := List.isPrefixOf_iff_prefix.mp hX
      rcases Nat.lt_or_ge (c :: t).length sep.length with hlen | hlen
      · have hxs : (c :: t) <+: sep :=
          List.prefix_of_prefix_length_le (List.prefix_append _ _) hPre (Nat.le_of_lt hlen)
        have htake : (c :: t) = sep.take (c :: t).length := List.prefix_iff_eq_take.mp hxs
        have hdropPre : sep.drop (c :: t).length <+: sep ++ y := by
          obtain ⟨w, hw⟩ := hPre
          refine ⟨w, ?_⟩
          have hsplit : sep.take (c :: t).length ++ sep.drop (c :: t).length = sep :=
            List.take_append_drop _ _
          nth_rewrite 1 [← hsplit] at hw
          rw [← htake, List.append_assoc] at hw
          exact List.append_cancel_left hw
        have hdropSep : sep.drop (c :: t).length <+: sep :=
          List.prefix_of_prefix_length_le hdropPre (List.prefix_append _ _)
            (by rw [List.length_drop]; omega)
        have hdt : sep.drop (c :: t).length = sep.take (sep.length - (c :: t).length) := by
          have h2 := List.prefix_iff_eq_take.mp hdropSep
          rwa [List.length_drop] at h2
        exact hov (c :: t).length hlen (by simp) hdt
      · have hxs : sep <+: (c :: t) :=
          List.prefix_of_prefix_length_le hPre (List.prefix_append _ _) hlen
        exact absurd (List.isPrefixOf_iff_prefix.mpr hxs) (by simp [hx2.1])
    show splitOnceList sep (c :: (t ++ (sep ++ y))) = (c :: t, some y)
    simp only [splitOnceList]
    rw [if_neg (by simp [hnotpre])]
    simp [ih hx2.2]

theorem replaceAllAux_no_occ {sep : List Char} (repl : List Char) {l : List Char}
    (h : containsList l sep = false) : replaceAllAux sep repl 0 l = l := by
  induction l with
  | nil => rfl
  | cons c t ih =>
    have h2 : (sep.isPrefixOf (c :: t) || containsList t sep) = false := h
    rw [Bool.or_eq_false_iff] at h2
    simp only [replaceAllAux]
    rw [if_neg (by simp [h2.1])]
    rw [ih h2.2]

theorem replaceAll_sql_head (q : List Char) (hq : containsList q "SQL:".data = false) :
    replaceAllAux "SQL:".data [] 0 ("SQL: ".data ++ q) = ' ' :: q := by
  have hpre : ("SQL:".data).isPrefixOf ("SQL: ".data ++ q) = true := by
    simp [List.isPrefixOf]
  have hnot : ("SQL:".data).isPrefixOf (' ' :: q) = false := by
    simp [List.isPrefixOf]
  show replaceAllAux "SQL:".data [] 0 ('S' :: 'Q' :: 'L' :: ':' :: ' ' :: q) = ' ' :: q
  simp only [replaceAllAux]
  rw [if_pos (by simp [hpre]), if_neg (by simp [hnot])]
  simp [replaceAllAux_no_occ [] hq]

theorem stripList_cons_space (l : List Char) : stripList (' ' :: l) = stripList l := by
  simp [stripList, List.dropWhile_cons, show isPySpace ' ' = true from rfl]

/-- C10 (amended): parsing the tool output built as SQL: q newline Result: r
recovers q and r trimmed, provided q itself contains neither the SQL: marker nor
the newline-Result: separator (otherwise the first-occurrence split and the global
replace tear q apart); parsing any output that lacks one of the two markers yields
both fields absent, and the parser is a total function. -/
theorem claim10_parse_roundtrip :
    (∀ q r : String,
      strContains q "SQL:" = false →
      strContains q "\nResult:" = false →
      parseSqlToolOutput ("SQL: " ++ q ++ "\nResult: " ++ r)
        = (some (pyStrip q), some (pyStrip r))) ∧
    (∀ output : String,
      (strContains output "SQL:" && strContains output "Result:") = false →
      parseSqlToolOutput output = (none, none)) := by
  constructor
  · intro q r hq1 hq2
    set out := "SQL: " ++ q ++ "\nResult: " ++ r with hout
    have hdata : out.data
        = ("SQL: ".data ++ q.data) ++ ("\nResult:".data ++ (' ' :: r.data)) := by
      rw [hout]
      simp [String.data_append]
    have hc1 : containsList out.data "SQL:".data = true := by
      rw [hdata]
      apply containsList_of_prefix
      refine ⟨[' '] ++ (q.data ++ ("\nResult:".data ++ (' ' :: r.data))), ?_⟩
      rw [show "SQL: ".data = "SQL:".data ++ [' '] from by decide]
      simp [List.append_assoc]
    have hc2 : containsList out.data "Result:".data = true := by
      rw [hdata]
      apply containsList_of_infix
      refine ⟨("SQL: ".data ++ q.data) ++ ['\n'], ' ' :: r.data, ?_⟩
      rw [show "\nResult:".data = '\n' :: "Result:".data from by decide]
      simp [List.append_assoc]
    have hcond : (strContains out "SQL:" && strContains out "Result:") = true := by
      simp [strContains, hc1, hc2]
    have hx : containsList ("SQL: ".data ++ q.data) "\nResult:".data = false := by
      rw [show ("\nResult:".data : List Char) = '\n' :: "Result:".data from by decide,
          containsList_append_head_notin (show ('\n') ∉ "SQL: ".data by decide)]
      exact hq2
    have hsplit : splitOnceList "\nResult:".data out.data
        = ("SQL: ".data ++ q.data, some (' ' :: r.data)) := by
      rw [hdata]
      exact splitOnceList_append _ _ (by decide) (by decide) hx
    have hrepl : pyReplaceAll (String.mk ('S' :: 'Q' :: 'L' :: ':' :: ' ' :: q.data)) "SQL:" ""
        = String.mk (' ' :: q.data) :=
      congrArg String.mk (replaceAll_sql_head q.data hq1)
    have hstrip1 : pyStrip (String.mk (' ' :: q.data)) = pyStrip q :=
      congrArg String.mk (stripList_cons_space q.data)
    have hstrip2 : pyStrip (String.mk (' ' :: r.data)) = pyStrip r :=
      congrArg String.mk (stripList_cons_space r.data)
    unfold parseSqlToolOutput
    rw [if_pos hcond]
    simp [pySplitOnce, hsplit, hrepl, hstrip1, hstrip2]
  · intro output hcond
    unfold parseSqlToolOutput
    rw [if_neg (by simp [hcond])]

/-- C10 counterexample: when q itself contains the separator, the split happens
inside q, so the parsed fields do not recover q and r: here q is the two-line text
a newline Result: b and r is c, but parsing returns a and b newline Result: c. -/
theorem claim10_counterexample :
    parseSqlToolOutput ("SQL: " ++ "a\nResult: b" ++ "\nResult: " ++ "c")
      = (some "a", some "b\nResult: c") ∧ ("b\nResult: c" : String) ≠ "c" :=
  ⟨by decide, by decide⟩

/-- Witness for C1 at a concrete request and environment. -/
theorem claim1_routing_witness :
    ((invoke "What is the refund policy?" envA).sqlCalled = true ↔
      ((classify "What is the refund policy?" (some envA.classifyLLM)).result.intent
          = INTENT_CUSTOMER ∨
       (classify "What is the refund policy?" (some envA.classifyLLM)).result.intent
          = INTENT_BOTH)) ∧
    ((invoke "What is the refund policy?" envA).retrieverCalled = true ↔
      ((classify "What is the refund policy?" (some envA.classifyLLM)).result.intent
          = INTENT_POLICY ∨
       (classify "What is the refund policy?" (some envA.classifyLLM)).result.intent
          = INTENT_BOTH)) :=
  claim1_routing "What is the refund policy?" envA (by decide)

/-- Witness for C2 at a concrete request and environment. -/
theorem claim2_context_assembly_witness :
    (invoke "ticket history" envA).contextParts =
      (match (invoke "ticket history" envA).response.sql_result with
        | some v => ["Customer/ticket data:\n" ++ v]
        | none => []) ++
      (match (invoke "ticket history" envA).snippetFlow with
        | some v => if v = "" then [] else ["Policy/relevant documents:\n" ++ v]
        | none => []) ++
      (if (invoke "ticket history" envA).response.sql_result = none ∧
          ((invoke "ticket history" envA).snippetFlow = none ∨
           (invoke "ticket history" envA).snippetFlow = some "")
        then [noDataSentinel] else []) :=
  claim2_context_assembly "ticket history" envA (by decide)

/-- Witness for C3: with the final model call failing, the concrete answer is the
apologetic fallback embedding the error text. -/
theorem claim3_total_answer_witness :
    (invoke "ticket history" envErrFinal).response.answer = fallbackAnswerPre ++ "llm down" :=
  (claim3_total_answer "ticket history" envErrFinal).2.1 "llm down" rfl (by decide)

/-- Witness for C4 at a concrete pure-policy question. -/
theorem claim4_policy_only_witness :
    (classify "What is the refund policy?" (some envA.classifyLLM)).result.intent
        = INTENT_POLICY ∧
    (classify "What is the refund policy?" (some envA.classifyLLM)).result.confidence
        = PyFloat.finite (95/100) ∧
    ((95 : ℚ)/100 ≥ 9/10) ∧
    (classify "What is the refund policy?" (some envA.classifyLLM)).llmCalled = false ∧
    (invoke "What is the refund policy?" envA).sqlCalled = false :=
  claim4_policy_only "What is the refund policy?" envA (by decide) (by decide) (by decide)
    (by decide)

/-- Witness for C5: the universally quantified branch conjunct applied at the
Denise Lee question (person-name signal) and at a question carrying only an
extracted ticket-id entity beside the policy keyword. -/
theorem claim5_policy_plus_person_witness :
    ((classify deniseMsg none).result.intent = INTENT_BOTH ∧
     (classify deniseMsg none).result.confidence = PyFloat.finite (9/10) ∧
     (classify deniseMsg none).llmCalled = false) ∧
    ((classify "ticket a5 terms" none).result.intent = INTENT_BOTH ∧
     (classify "ticket a5 terms" none).result.confidence = PyFloat.finite (9/10) ∧
     (classify "ticket a5 terms" none).llmCalled = false) :=
  ⟨claim5_policy_plus_person.1 deniseMsg none (by decide) (Or.inr (Or.inl (by decide))),
   claim5_policy_plus_person.1 "ticket a5 terms" none (by decide)
     (Or.inr (Or.inr (by decide)))⟩

/-- Witness for C6 at a concrete whitespace-only request. -/
theorem claim6_empty_input_witness :
    (classify "   " none).result.intent = INTENT_BOTH ∧
    (classify "   " none).result.confidence = PyFloat.finite 0 ∧
    (invoke "   " envA).response.answer = clarificationAnswer ∧
    (invoke "   " envA).sqlCalled = false ∧
    (invoke "   " envA).retrieverCalled = false ∧
    (invoke "   " envA).classifyLLMCalled = false ∧
    (invoke "   " envA).finalLLMCalled = false :=
  claim6_empty_input "   " envA none (by decide)

/-- Witness for C7: the parse-failure conjunct applied at a concrete non-JSON
model output. -/
theorem claim7_fallback_witness :
    (classify "hello there" (some (Except.ok "not json"))).result.intent = INTENT_BOTH ∧
    (classify "hello there" (some (Except.ok "not json"))).result.confidence = PyFloat.finite (1/2) ∧
    (classify "hello there" (some (Except.ok "not json"))).llmCalled = true :=
  (claim7_fallback "hello there" (by decide) (by decide) (by decide) (by decide)
    (by decide)).2.1 "not json" rfl

/-- Witness for C8 at the Denise Lee question. -/
theorem claim8_entities_merged_witness :
    ((classify deniseMsg none).result.entities.getD EntityBag.empty)
      = extractEntities (pyStrip deniseMsg) :=
  claim8_entities_merged deniseMsg none (by decide)

/-- Witness for C9 at a concrete destructive model output and statement. -/
theorem claim9_select_guard_witness :
    queryCustomerTickets "show tickets"
        ⟨Except.ok "DROP TABLE support_tickets", fun _ => Except.ok []⟩
      = (notSelectMsg, false) ∧
    runQuery "DELETE FROM support_tickets" (fun _ => Except.ok [])
      = ([[("error", "Only SELECT queries are allowed.")]], false) :=
  ⟨claim9_select_guard.1 "show tickets"
      ⟨Except.ok "DROP TABLE support_tickets", fun _ => Except.ok []⟩
      "DROP TABLE support_tickets" (by decide) rfl (by decide),
   claim9_select_guard.2 "DELETE FROM support_tickets" (fun _ => Except.ok []) (by decide)⟩

/-- Witness for C10 at concrete well-formed query and result strings. -/
theorem claim10_parse_roundtrip_witness :
    parseSqlToolOutput ("SQL: " ++ "SELECT 1" ++ "\nResult: " ++ " ok ")
      = (some (pyStrip "SELECT 1"), some (pyStrip " ok ")) :=
  claim10_parse_roundtrip.1 "SELECT 1" " ok " (by decide) (by decide)

end MSA
